import Mathlib

/-!
Shallow embedding of the pdf-summarizer pipeline (`function_app.py`).

The program is a linear serverless pipeline: a blob trigger derives a leaf
file name and starts an orchestration; the orchestrator calls three
activities in sequence with retry (`analyze_pdf`, `summarize_text`,
`write_summary`); each activity is request/response glue around external
services.  External services (blob storage, the layout-analysis service,
the chat-completion endpoint, the clock) are modelled as explicit function
parameters, so every activity becomes a pure Lean function of its input
and of the services' responses.  Machine effects that can fail (missing
environment variables, HTTP error statuses, missing JSON keys, missing
blobs) are modelled with `Except Err`.
-/

namespace PdfSummarizer

/-- Raw document bytes (`pdf_bytes` in the source). -/
abbrev Bytes := List Nat

/-- The process environment, `os.environ`: a lookup that may miss
(`os.environ[k]` raises `KeyError` when `k` is absent). -/
abbrev Environ := String → Option String

/-- The Python exceptions the pipeline's code can surface. -/
inductive Err where
  /-- `KeyError` from `os.environ[k]` with the missing key. -/
  | keyError (k : String)
  /-- `requests.HTTPError` raised by `resp.raise_for_status()`. -/
  | httpError (status : Nat)
  /-- `KeyError` / `IndexError` from indexing into the response JSON. -/
  | lookupError
  /-- blob download failure (blob absent from the input container). -/
  | blobNotFound
  /-- layout-analysis failure (`poller.result()` raises). -/
  | analysisError
  /-- `ResourceExistsError` from `upload_blob` on an existing name. -/
  | blobAlreadyExists
deriving DecidableEq

/-- JSON values, for the completion endpoint's request and response bodies. -/
inductive Json where
  | null
  | bool (b : Bool)
  | num (n : Int)
  | str (s : String)
  | arr (elems : List Json)
  | obj (fields : List (String × Json))

/-- Python `d[k]` on a JSON object (first binding wins), `none` when the
value is not an object or the key is absent. -/
def Json.get? : Json → String → Option Json
  | .obj fields, k => fields.lookup k
  | _, _ => none

/-- Python `a[i]` on a JSON array, `none` when the value is not an array
or the index is out of range. -/
def Json.idx? : Json → Nat → Option Json
  | .arr elems, i => elems.get? i
  | _, _ => none

/-- A UTC wall-clock reading, `datetime.utcnow()`. -/
structure DateTime where
  year : Nat
  month : Nat
  day : Nat
  hour : Nat
  minute : Nat
  second : Nat

/-- Zero-pad to two digits (strftime `%m`, `%d`, `%H`, `%M`, `%S`). -/
def pad2 (n : Nat) : String :=
  if n < 10 then "0" ++ toString n else toString n

/-- Zero-pad to four digits (strftime `%Y`). -/
def pad4 (n : Nat) : String :=
  if n < 10 then "000" ++ toString n
  else if n < 100 then "00" ++ toString n
  else if n < 1000 then "0" ++ toString n
  else toString n

/-- `datetime.utcnow().strftime("%Y%m%d%H%M%S")`: the second-resolution
UTC timestamp in `yyyyMMddHHmmss` form. -/
def strftime14 (t : DateTime) : String :=
  pad4 t.year ++ pad2 t.month ++ pad2 t.day ++
    pad2 t.hour ++ pad2 t.minute ++ pad2 t.second

/-- One extracted text line (`line.content`). -/
structure Line where
  content : String

/-- One analyzed page (`p.lines`, in order). -/
structure Page where
  lines : List Line

/-- A call to the layout-analysis service:
`begin_analyze_document("prebuilt-layout", document=pdf_bytes, locale="en-US")`
issued by a `DocumentAnalysisClient(endpoint, AzureKeyCredential(key))`. -/
structure AnalyzeRequest where
  endpoint : String
  key : String
  modelId : String
  locale : String
  document : Bytes

/-- An HTTP request issued by `requests.post(url, headers=headers, json=body)`. -/
structure HttpRequest where
  url : String
  headers : List (String × String)
  body : Json

/-- An HTTP response: status code and (already decoded) JSON body. -/
structure HttpResponse where
  status : Nat
  body : Json

/-- Python `sep.join(xs)`. -/
def pyJoin (sep : String) : List String → String
  | [] => ""
  | [x] => x
  | x :: y :: rest => x ++ sep ++ pyJoin sep (y :: rest)

/-- Python `s.rstrip("/")`: remove every trailing `'/'`. -/
def rstripSlash (s : String) : String :=
  String.mk (s.data.reverse.dropWhile (fun c => c = '/')).reverse

/-- Module-level cold start: line 17 constructs the global blob client
`BlobServiceClient.from_connection_string(os.environ["BLOB_STORAGE_ENDPOINT"])`.
This is the only environment read performed at import time; a missing key
is an unhandled `KeyError` before any trigger can run. -/
def coldStart (environ : Environ) : Except Err String :=
  match environ "BLOB_STORAGE_ENDPOINT" with
  | none => .error (.keyError "BLOB_STORAGE_ENDPOINT")
  | some conn => .ok conn

/-- Helper for Python `s.split("/")`: returns the current (first) segment
and the list of remaining segments. -/
def splitSlashAux : List Char → List Char × List (List Char)
  | [] => ([], [])
  | c :: rest =>
    if c = '/' then ([], (splitSlashAux rest).1 :: (splitSlashAux rest).2)
    else (c :: (splitSlashAux rest).1, (splitSlashAux rest).2)

/-- Python `s.split("/")`: every occurrence splits, empty segments kept
(`"".split("/") == [""]`). -/
def splitSlash (cs : List Char) : List (List Char) :=
  (splitSlashAux cs).1 :: (splitSlashAux cs).2

/-- `myblob.name.split("/")[-1]`: the last segment of the path. -/
def leafName (p : String) : String :=
  String.mk ((splitSlash p.data).getLastD [])

/-- A `client.start_new(name, client_input=input)` call recorded by the
blob trigger. -/
structure StartCall where
  orchestratorName : String
  input : String

/-- The blob trigger (`blob_trigger`): derives the leaf file name from the
blob path and starts one orchestration instance with it. -/
def blob_trigger (path : String) : List StartCall :=
  [{ orchestratorName := "orchestrator", input := leafName path }]

/-- `df.RetryOptions`, as constructed on line 30 of the source. -/
structure RetryOptions where
  first_retry_interval_in_milliseconds : Nat
  max_number_of_attempts : Nat

/-- Retry loop of the durable host's `call_activity_with_retry`: run
attempt `i`, and on failure retry while fuel remains; the last attempt's
error is surfaced.  (The retry machinery lives in the durable-functions
host, outside this repository; this is its documented semantics for
`max_number_of_attempts` total attempts.) -/
def retryGo (attempt : Nat → Except Err Json) : Nat → Nat → Except Err Json
  | _, 0 => .error .lookupError
  | i, Nat.succ n =>
    match attempt i with
    | .ok v => .ok v
    | .error e => if n = 0 then .error e else retryGo attempt (i + 1) n

/-- `context.call_activity_with_retry` outcome, given the per-attempt
results of the activity. -/
def callWithRetry (opts : RetryOptions) (attempt : Nat → Except Err Json) :
    Except Err Json :=
  retryGo attempt 0 opts.max_number_of_attempts

/-- The retry options the orchestrator constructs:
`RetryOptions(first_retry_interval_in_milliseconds=5000, max_number_of_attempts=3)`. -/
def retry_opts : RetryOptions :=
  { first_retry_interval_in_milliseconds := 5000, max_number_of_attempts := 3 }

/-- One activity invocation scheduled by the orchestrator. -/
structure ActivityCall where
  name : String
  input : Json

/-- The orchestrator: three sequential `call_activity_with_retry` steps,
each consuming the previous step's output; the result of the third is the
instance result.  `attemptOf name input i` is the outcome of attempt `i`
of activity `name` on `input`.  Returns the list of activities scheduled
(in order) together with the instance outcome. -/
def orchestrator (attemptOf : String → Json → Nat → Except Err Json)
    (input : Json) : List ActivityCall × Except Err Json :=
  let blob_name := input
  let c1 : ActivityCall := { name := "analyze_pdf", input := blob_name }
  match callWithRetry retry_opts (attemptOf "analyze_pdf" blob_name) with
  | .error e => ([c1], .error e)
  | .ok text =>
    let c2 : ActivityCall := { name := "summarize_text", input := text }
    match callWithRetry retry_opts (attemptOf "summarize_text" text) with
    | .error e => ([c1, c2], .error e)
    | .ok summary =>
      let winput := Json.obj [("blob", blob_name), ("summary", summary)]
      let c3 : ActivityCall := { name := "write_summary", input := winput }
      match callWithRetry retry_opts (attemptOf "write_summary" winput) with
      | .error e => ([c1, c2, c3], .error e)
      | .ok outblob => ([c1, c2, c3], .ok outblob)

/-- All extracted line contents, page order outer, line order inner:
the generator `line.content for p in pages for line in p.lines`. -/
def allLines : List Page → List String
  | [] => []
  | p :: ps => p.lines.map Line.content ++ allLines ps

/-- The extraction activity `analyze_pdf`: download the blob from the
input container, read the two cognitive-services environment variables,
submit the bytes for `"prebuilt-layout"` analysis with locale `"en-US"`,
and join every line's content with `"\n"`.  `download` is the input
container's blob lookup; `analyze` is the layout-analysis service. -/
def analyze_pdf (environ : Environ) (download : String → Option Bytes)
    (analyze : AnalyzeRequest → Option (List Page)) (blobName : String) :
    Except Err String :=
  match download blobName with
  | none => .error .blobNotFound
  | some pdf_bytes =>
    match environ "COGNITIVE_SERVICES_ENDPOINT" with
    | none => .error (.keyError "COGNITIVE_SERVICES_ENDPOINT")
    | some cs_endpoint =>
      match environ "COGNITIVE_SERVICES_KEY" with
      | none => .error (.keyError "COGNITIVE_SERVICES_KEY")
      | some cs_key =>
        match analyze { endpoint := cs_endpoint, key := cs_key,
                        modelId := "prebuilt-layout", locale := "en-US",
                        document := pdf_bytes } with
        | none => .error .analysisError
        | some pages => .ok (pyJoin "\n" (allLines pages))

/-- `api_ver = "2025-01-01-preview"`. -/
def api_ver : String := "2025-01-01-preview"

/-- `resp.json()["choices"][0]["message"]["content"]` as an optional
lookup: `some` exactly when every step of the path exists. -/
def choicesPath (j : Json) : Option Json :=
  (((j.get? "choices").bind (fun x => x.idx? 0)).bind
      (fun x => x.get? "message")).bind (fun x => x.get? "content")

/-- The summarization activity `summarize_text`, with the HTTP requests it
issues made explicit: read the three completion-service environment
variables (endpoint and deployment before building the URL, the key when
building the headers), strip trailing slashes from the endpoint, POST the
single-user-message body with `max_tokens = 200`, raise for an error
status (`raise_for_status` raises exactly for 400 ≤ status < 600), then
index `choices[0].message.content` out of the response JSON.  Returns the
list of requests issued and the outcome. -/
def summarize_text_core (environ : Environ)
    (post : HttpRequest → HttpResponse) (text : String) :
    List HttpRequest × Except Err Json :=
  match environ "AZURE_OPENAI_ENDPOINT" with
  | none => ([], .error (.keyError "AZURE_OPENAI_ENDPOINT"))
  | some raw_endpoint =>
    match environ "AZURE_OPENAI_DEPLOYMENT_NAME" with
    | none => ([], .error (.keyError "AZURE_OPENAI_DEPLOYMENT_NAME"))
    | some deployment =>
      match environ "AZURE_OPENAI_KEY" with
      | none => ([], .error (.keyError "AZURE_OPENAI_KEY"))
      | some api_key =>
        let endpoint := rstripSlash raw_endpoint
        let url := endpoint ++ "/openai/deployments/" ++ deployment ++
          "/chat/completions?api-version=" ++ api_ver
        let headers := [("api-key", api_key),
                        ("Content-Type", "application/json")]
        let body := Json.obj
          [("messages", Json.arr
              [Json.obj [("role", Json.str "user"),
                         ("content", Json.str text)]]),
           ("max_tokens", Json.num 200)]
        let req : HttpRequest := { url := url, headers := headers, body := body }
        let resp := post req
        ([req],
          if 400 ≤ resp.status ∧ resp.status < 600 then
            .error (.httpError resp.status)
          else
            match choicesPath resp.body with
            | some c => .ok c
            | none => .error .lookupError)

/-- The state of the output container: blob name / blob content pairs in
upload order. -/
abbrev OutStore := List (String × String)

/-- The persistence activity `write_summary`: name the output blob
`{blob}-{utcnow:%Y%m%d%H%M%S}.txt` and upload the summary to the output
container.  `upload_blob` without `overwrite=True` raises
`ResourceExistsError` when the name already exists; otherwise the store
gains exactly the one new blob.  Returns the output name and the new
store. -/
def write_summary (store : OutStore) (now : DateTime)
    (blob summary : String) : Except Err (String × OutStore) :=
  let ts := strftime14 now
  let out_name := blob ++ "-" ++ ts ++ ".txt"
  match store.lookup out_name with
  | some _ => .error .blobAlreadyExists
  | none => .ok (out_name, store ++ [(out_name, summary)])

/-! ### Concrete instances used by witnesses and counterexamples -/

/-- An environment with all six configuration variables set. -/
def env_all : Environ := fun k =>
  if k = "BLOB_STORAGE_ENDPOINT" then some "conn"
  else if k = "COGNITIVE_SERVICES_ENDPOINT" then some "https://cog"
  else if k = "COGNITIVE_SERVICES_KEY" then some "cogkey"
  else if k = "AZURE_OPENAI_ENDPOINT" then some "https://svc"
  else if k = "AZURE_OPENAI_DEPLOYMENT_NAME" then some "dep"
  else if k = "AZURE_OPENAI_KEY" then some "secret"
  else none

/-- An environment with every variable present except `AZURE_OPENAI_KEY`. -/
def env_noseckey : Environ := fun k =>
  if k = "AZURE_OPENAI_KEY" then none else some "cfg"

/-- The empty environment: every lookup misses. -/
def env_empty : Environ := fun _ => none

/-- A fixed clock reading: 2025-01-01 12:00:00 UTC. -/
def now0 : DateTime :=
  { year := 2025, month := 1, day := 1, hour := 12, minute := 0, second := 0 }

/-- One analyzed page with two lines. -/
def pages0 : List Page :=
  [{ lines := [{ content := "Line 1" }, { content := "Line 2" }] }]

/-- A blob store in which every name downloads to the same bytes. -/
def dl0 : String → Option Bytes := fun _ => some [37, 80, 68, 70]

/-- A layout-analysis service that always returns `pages0`. -/
def an0 : AnalyzeRequest → Option (List Page) := fun _ => some pages0

/-- A well-formed completion response body carrying
`choices[0].message.content`. -/
def body_good : Json :=
  Json.obj [("choices", Json.arr
    [Json.obj [("message",
      Json.obj [("content", Json.str "A fine summary.")])]])]

/-- A `303 See Other` response (no redirect followed: no Location header)
whose body nevertheless carries a well-formed choices payload. -/
def resp303 : HttpResponse := { status := 303, body := body_good }

/-- A completion endpoint that always answers `resp303`. -/
def post303 : HttpRequest → HttpResponse := fun _ => resp303

/-- A `200 OK` response with a well-formed choices payload. -/
def resp200 : HttpResponse := { status := 200, body := body_good }

/-- A completion endpoint that always answers `resp200`. -/
def post200 : HttpRequest → HttpResponse := fun _ => resp200

/-- A `500 Internal Server Error` response with an empty body. -/
def resp500 : HttpResponse := { status := 500, body := Json.null }

/-- A completion endpoint that always answers `resp500`. -/
def post500 : HttpRequest → HttpResponse := fun _ => resp500

/-- Activity attempts that always succeed with the string `"v"`. -/
def attempt_ok : String → Json → Nat → Except Err Json :=
  fun _ _ _ => .ok (Json.str "v")

/-- Activity attempts where summarization always returns HTTP 429 and
every other activity succeeds. -/
def attempt_429 : String → Json → Nat → Except Err Json :=
  fun name _ _ =>
    if name = "summarize_text" then .error (.httpError 429)
    else .ok (Json.str "v")

/-- Activity attempts where extraction always fails (blob missing) and
every other activity succeeds. -/
def attempt_afail : String → Json → Nat → Except Err Json :=
  fun name _ _ =>
    if name = "analyze_pdf" then .error .blobNotFound
    else .ok (Json.str "v")

/-- Activity attempts where persistence always fails (the upload raises)
and every other activity succeeds. -/
def attempt_wfail : String → Json → Nat → Except Err Json :=
  fun name _ _ =>
    if name = "write_summary" then .error .blobAlreadyExists
    else .ok (Json.str "v")

/-! ### Helper lemmas -/

/-- Appending a fresh key at the end of an association list makes it
found by `lookup`. -/
lemma lookup_append_single (st : OutStore) (k v : String)
    (h : st.lookup k = none) : (st ++ [(k, v)]).lookup k = some v := by
  induction st with
  | nil => simp [List.lookup]
  | cons hd tl ih =>
    obtain ⟨k', v'⟩ := hd
    simp only [List.cons_append, List.lookup] at h ⊢
    cases hq : (k == k') with
    | true => rw [hq] at h; simp at h
    | false => rw [hq] at h; exact ih h

/-- Unfolding one step of the retry loop. -/
lemma retryGo_succ (attempt : Nat → Except Err Json) (i n : Nat) :
    retryGo attempt i (n + 1) =
      match attempt i with
      | .ok v => .ok v
      | .error e => if n = 0 then .error e else retryGo attempt (i + 1) n :=
  rfl

/-- When the first three attempts all fail with `e`, a
`max_number_of_attempts = 3` retried call fails with `e`. -/
lemma callWithRetry_of_all_fail (attempt : Nat → Except Err Json) (e : Err)
    (h : ∀ i, i < 3 → attempt i = .error e) :
    callWithRetry retry_opts attempt = .error e := by
  have h0 := h 0 (by norm_num)
  have h1 := h 1 (by norm_num)
  have h2 := h 2 (by norm_num)
  show retryGo attempt 0 (2 + 1) = .error e
  rw [retryGo_succ, h0]
  simp only [Nat.succ_ne_zero, if_false]
  show retryGo attempt 1 (1 + 1) = .error e
  rw [retryGo_succ, h1]
  simp only [Nat.succ_ne_zero, if_false]
  show retryGo attempt 2 (0 + 1) = .error e
  rw [retryGo_succ, h2]
  simp

/-! ### Claim theorems -/

/-- Claim C1: a successful run of the persistence activity creates exactly
one new blob in the output container, named `f` followed by `'-'`, the
second-resolution UTC timestamp in `yyyyMMddHHmmss` form, and `".txt"`
(hence starting with `f ++ "-"` and ending with `".txt"`), whose content
is exactly the summary `S`, unmodified. -/
theorem write_summary_creates_one_timestamped_blob
    (store : OutStore) (now : DateTime) (f S out : String) (store' : OutStore)
    (h : write_summary store now f S = .ok (out, store')) :
    out = f ++ "-" ++ strftime14 now ++ ".txt" ∧
    store.lookup out = none ∧
    store' = store ++ [(out, S)] ∧
    store'.lookup out = some S ∧
    store'.length = store.length + 1 ∧
    (∃ rest, out = f ++ "-" ++ rest) ∧
    (∃ stem, out = stem ++ ".txt") := by
  simp only [write_summary] at h
  cases hl : store.lookup (f ++ "-" ++ strftime14 now ++ ".txt") with
  | some v => rw [hl] at h; exact absurd h (by simp)
  | none =>
    rw [hl] at h
    simp only [Except.ok.injEq, Prod.mk.injEq] at h
    obtain ⟨ho, hs⟩ := h
    subst ho
    subst hs
    refine ⟨rfl, hl, rfl, lookup_append_single store _ S hl, by simp,
      ⟨strftime14 now ++ ".txt", ?_⟩, ⟨f ++ "-" ++ strftime14 now, rfl⟩⟩
    rw [String.append_assoc]

/-- Witness for C1 at a concrete input: writing summary `"S"` for
`"invoice.pdf"` at 2025-01-01 12:00:00 UTC into an empty output
container. -/
theorem write_summary_creates_one_timestamped_blob_witness :
    ("invoice.pdf-20250101120000.txt" : String) =
        "invoice.pdf" ++ "-" ++ strftime14 now0 ++ ".txt" ∧
    ([] : OutStore).lookup "invoice.pdf-20250101120000.txt" = none ∧
    ([("invoice.pdf-20250101120000.txt", "S")] : OutStore) =
        [] ++ [("invoice.pdf-20250101120000.txt", "S")] ∧
    ([("invoice.pdf-20250101120000.txt", "S")] : OutStore).lookup
        "invoice.pdf-20250101120000.txt" = some "S" ∧
    ([("invoice.pdf-20250101120000.txt", "S")] : OutStore).length =
        ([] : OutStore).length + 1 ∧
    (∃ rest, ("invoice.pdf-20250101120000.txt" : String) =
        "invoice.pdf" ++ "-" ++ rest) ∧
    (∃ stem, ("invoice.pdf-20250101120000.txt" : String) =
        stem ++ ".txt") :=
  write_summary_creates_one_timestamped_blob [] now0 "invoice.pdf" "S"
    "invoice.pdf-20250101120000.txt"
    [("invoice.pdf-20250101120000.txt", "S")] (by rfl)

/-- Claim C2: the extraction activity returns every page's every line's
content, in page order then line order, joined with single newline
separators; with zero extractable lines it returns the empty string. -/
theorem analyze_pdf_joins_lines
    (environ : Environ) (download : String → Option Bytes)
    (analyze : AnalyzeRequest → Option (List Page))
    (blobName cs_endpoint cs_key : String) (bs : Bytes) (pages : List Page)
    (hdl : download blobName = some bs)
    (he : environ "COGNITIVE_SERVICES_ENDPOINT" = some cs_endpoint)
    (hk : environ "COGNITIVE_SERVICES_KEY" = some cs_key)
    (han : analyze { endpoint := cs_endpoint, key := cs_key,
                     modelId := "prebuilt-layout", locale := "en-US",
                     document := bs } = some pages) :
    analyze_pdf environ download analyze blobName =
      .ok (pyJoin "\n" (allLines pages)) ∧
    (allLines pages = [] →
      analyze_pdf environ download analyze blobName = .ok "") := by
  have hmain : analyze_pdf environ download analyze blobName =
      .ok (pyJoin "\n" (allLines pages)) := by
    simp only [analyze_pdf, hdl, he, hk, han]
  exact ⟨hmain, fun hz => by rw [hmain, hz]; rfl⟩

/-- Witness for C2 at a concrete input: a one-page, two-line document. -/
theorem analyze_pdf_joins_lines_witness :
    analyze_pdf env_all dl0 an0 "invoice.pdf" =
      .ok (pyJoin "\n" (allLines pages0)) ∧
    (allLines pages0 = [] →
      analyze_pdf env_all dl0 an0 "invoice.pdf" = .ok "") :=
  analyze_pdf_joins_lines env_all dl0 an0 "invoice.pdf" "https://cog"
    "cogkey" [37, 80, 68, 70] pages0 rfl rfl rfl rfl

/-- Claim C4: when every step succeeds, the orchestrator schedules exactly
the three activities, in the order extraction / summarization /
persistence, feeding each step's output to the next (the persistence input
pairs the original blob name with the summary), and returns the
persistence activity's output as the instance result. -/
theorem orchestrator_three_steps_in_order
    (attemptOf : String → Json → Nat → Except Err Json) (b t s o : Json)
    (h1 : callWithRetry retry_opts (attemptOf "analyze_pdf" b) = .ok t)
    (h2 : callWithRetry retry_opts (attemptOf "summarize_text" t) = .ok s)
    (h3 : callWithRetry retry_opts (attemptOf "write_summary"
            (Json.obj [("blob", b), ("summary", s)])) = .ok o) :
    orchestrator attemptOf b =
      ([{ name := "analyze_pdf", input := b },
        { name := "summarize_text", input := t },
        { name := "write_summary",
          input := Json.obj [("blob", b), ("summary", s)] }], .ok o) := by
  simp only [orchestrator, h1, h2, h3]

/-- Witness for C4 at a concrete input: every attempt succeeds with
`Json.str "v"`. -/
theorem orchestrator_three_steps_in_order_witness :
    orchestrator attempt_ok (Json.str "doc.pdf") =
      ([{ name := "analyze_pdf", input := Json.str "doc.pdf" },
        { name := "summarize_text", input := Json.str "v" },
        { name := "write_summary",
          input := Json.obj [("blob", Json.str "doc.pdf"),
                             ("summary", Json.str "v")] }],
       .ok (Json.str "v")) :=
  orchestrator_three_steps_in_order attempt_ok (Json.str "doc.pdf")
    (Json.str "v") (Json.str "v") (Json.str "v") rfl rfl rfl

/-- Counterexample to claim C5 as stated: the claim quantifies over any
step exhausting its retry ceiling, but when the step that exhausts its
three attempts is the persistence step itself, the persistence activity
has been invoked (three failing attempts), so "the persistence activity
is never invoked" is false.  Concretely: every `write_summary` attempt
fails, the instance fails, and `write_summary` appears among the
scheduled activities. -/
theorem orchestrator_persistence_step_retry_counterexample :
    attempt_wfail "write_summary"
        (Json.obj [("blob", Json.str "doc.pdf"),
                   ("summary", Json.str "v")]) 0 =
      .error .blobAlreadyExists ∧
    attempt_wfail "write_summary"
        (Json.obj [("blob", Json.str "doc.pdf"),
                   ("summary", Json.str "v")]) 1 =
      .error .blobAlreadyExists ∧
    attempt_wfail "write_summary"
        (Json.obj [("blob", Json.str "doc.pdf"),
                   ("summary", Json.str "v")]) 2 =
      .error .blobAlreadyExists ∧
    orchestrator attempt_wfail (Json.str "doc.pdf") =
      ([{ name := "analyze_pdf", input := Json.str "doc.pdf" },
        { name := "summarize_text", input := Json.str "v" },
        { name := "write_summary",
          input := Json.obj [("blob", Json.str "doc.pdf"),
                             ("summary", Json.str "v")] }],
       .error .blobAlreadyExists) :=
  ⟨rfl, rfl, rfl, rfl⟩

/-- Claim C5 (amended): whichever step exhausts its retry ceiling of
three attempts, the whole instance fails with that step's error and no
activity after the failed step is ever invoked — with no partial-result
salvage and no compensation of prior steps.  In particular, when the
extraction or the summarization step exhausts its retries (e.g. the
completion service returns HTTP 429 on all three attempts), the
persistence activity is never invoked and no output blob is created;
when the persistence step itself exhausts its retries the instance still
fails, persistence having been attempted without effect. -/
theorem orchestrator_step_exhaustion_fails_instance :
    (∀ (attemptOf : String → Json → Nat → Except Err Json) (b : Json)
        (e : Err),
      (∀ i, i < 3 → attemptOf "analyze_pdf" b i = .error e) →
      orchestrator attemptOf b =
        ([{ name := "analyze_pdf", input := b }], .error e)) ∧
    (∀ (attemptOf : String → Json → Nat → Except Err Json) (b t : Json)
        (e : Err),
      callWithRetry retry_opts (attemptOf "analyze_pdf" b) = .ok t →
      (∀ i, i < 3 → attemptOf "summarize_text" t i = .error e) →
      orchestrator attemptOf b =
        ([{ name := "analyze_pdf", input := b },
          { name := "summarize_text", input := t }], .error e)) ∧
    (∀ (attemptOf : String → Json → Nat → Except Err Json) (b t s : Json)
        (e : Err),
      callWithRetry retry_opts (attemptOf "analyze_pdf" b) = .ok t →
      callWithRetry retry_opts (attemptOf "summarize_text" t) = .ok s →
      (∀ i, i < 3 → attemptOf "write_summary"
          (Json.obj [("blob", b), ("summary", s)]) i = .error e) →
      orchestrator attemptOf b =
        ([{ name := "analyze_pdf", input := b },
          { name := "summarize_text", input := t },
          { name := "write_summary",
            input := Json.obj [("blob", b), ("summary", s)] }],
         .error e)) := by
  refine ⟨?_, ?_, ?_⟩
  · intro attemptOf b e h
    have h' : callWithRetry retry_opts (attemptOf "analyze_pdf" b) =
        .error e := callWithRetry_of_all_fail _ e h
    simp only [orchestrator, h']
  · intro attemptOf b t e h1 h
    have h' : callWithRetry retry_opts (attemptOf "summarize_text" t) =
        .error e := callWithRetry_of_all_fail _ e h
    simp only [orchestrator, h1, h']
  · intro attemptOf b t s e h1 h2 h
    have h' : callWithRetry retry_opts (attemptOf "write_summary"
        (Json.obj [("blob", b), ("summary", s)])) =
        .error e := callWithRetry_of_all_fail _ e h
    simp only [orchestrator, h1, h2, h']

/-- Witness for the amended C5 at concrete inputs, one per failing step:
extraction failing on every attempt, summarization answering HTTP 429 on
every attempt, and persistence failing on every attempt. -/
theorem orchestrator_step_exhaustion_fails_instance_witness :
    orchestrator attempt_afail (Json.str "doc.pdf") =
      ([{ name := "analyze_pdf", input := Json.str "doc.pdf" }],
       .error .blobNotFound) ∧
    orchestrator attempt_429 (Json.str "doc.pdf") =
      ([{ name := "analyze_pdf", input := Json.str "doc.pdf" },
        { name := "summarize_text", input := Json.str "v" }],
       .error (.httpError 429)) ∧
    orchestrator attempt_wfail (Json.str "doc.pdf") =
      ([{ name := "analyze_pdf", input := Json.str "doc.pdf" },
        { name := "summarize_text", input := Json.str "v" },
        { name := "write_summary",
          input := Json.obj [("blob", Json.str "doc.pdf"),
                             ("summary", Json.str "v")] }],
       .error .blobAlreadyExists) :=
  ⟨orchestrator_step_exhaustion_fails_instance.1 attempt_afail
      (Json.str "doc.pdf") .blobNotFound (fun _ _ => rfl),
   orchestrator_step_exhaustion_fails_instance.2.1 attempt_429
      (Json.str "doc.pdf") (Json.str "v") (.httpError 429) rfl
      (fun _ _ => rfl),
   orchestrator_step_exhaustion_fails_instance.2.2 attempt_wfail
      (Json.str "doc.pdf") (Json.str "v") (Json.str "v")
      .blobAlreadyExists rfl rfl (fun _ _ => rfl)⟩

/-- Counterexample to claim C3 as stated: `raise_for_status` raises only
for statuses in `[400, 600)`, so a non-2xx `303` final response whose JSON
body carries a well-formed choices payload makes `summarize_text` return
normally instead of failing. -/
theorem summarize_text_303_returns_normally :
    resp303.status = 303 ∧
    ¬(200 ≤ resp303.status ∧ resp303.status < 300) ∧
    (summarize_text_core env_all post303 "text").2 =
      .ok (Json.str "A fine summary.") :=
  ⟨rfl, by decide, rfl⟩

/-- Claim C3 (amended): `summarize_text` fails with an HTTP error exactly
when the completion endpoint's status is in `[400, 600)` (the statuses
`raise_for_status` raises for); on a status outside that range it returns
`choices[0].message.content` unmodified whenever that path exists in the
response JSON. -/
theorem summarize_text_raise_for_status
    (environ : Environ) (post : HttpRequest → HttpResponse)
    (resp : HttpResponse) (text ep dep key : String)
    (he : environ "AZURE_OPENAI_ENDPOINT" = some ep)
    (hd : environ "AZURE_OPENAI_DEPLOYMENT_NAME" = some dep)
    (hk : environ "AZURE_OPENAI_KEY" = some key)
    (hp : ∀ r, post r = resp) :
    (400 ≤ resp.status ∧ resp.status < 600 →
      (summarize_text_core environ post text).2 =
        .error (.httpError resp.status)) ∧
    (¬(400 ≤ resp.status ∧ resp.status < 600) →
      ∀ c, choicesPath resp.body = some c →
        (summarize_text_core environ post text).2 = .ok c) := by
  simp only [summarize_text_core, he, hd, hk]
  rw [hp]
  constructor
  · intro hrange
    rw [if_pos hrange]
  · intro hrange c hc
    rw [if_neg hrange, hc]

/-- Witness for the amended C3 at a concrete input: a 500 response makes
the activity fail with `httpError 500`. -/
theorem summarize_text_raise_for_status_witness :
    (400 ≤ resp500.status ∧ resp500.status < 600 →
      (summarize_text_core env_all post500 "text").2 =
        .error (.httpError resp500.status)) ∧
    (¬(400 ≤ resp500.status ∧ resp500.status < 600) →
      ∀ c, choicesPath resp500.body = some c →
        (summarize_text_core env_all post500 "text").2 = .ok c) :=
  summarize_text_raise_for_status env_all post500 resp500 "text"
    "https://svc" "dep" "secret" rfl rfl rfl (fun _ => rfl)

/-- Claim C8: the summarization activity issues exactly one POST, to
`{endpoint}/openai/deployments/{deployment}/chat/completions` with
api-version `2025-01-01-preview`, carrying the `api-key` header and a JSON
body with a single user message holding the full text and a fixed
`max_tokens` budget of 200. -/
theorem summarize_text_single_post_request
    (environ : Environ) (post : HttpRequest → HttpResponse)
    (text ep dep key : String)
    (he : environ "AZURE_OPENAI_ENDPOINT" = some ep)
    (hd : environ "AZURE_OPENAI_DEPLOYMENT_NAME" = some dep)
    (hk : environ "AZURE_OPENAI_KEY" = some key)
    (hs : rstripSlash ep = ep) :
    api_ver = "2025-01-01-preview" ∧
    (summarize_text_core environ post text).1 =
      [{ url := ep ++ "/openai/deployments/" ++ dep ++
           "/chat/completions?api-version=" ++ api_ver,
         headers := [("api-key", key), ("Content-Type", "application/json")],
         body := Json.obj
           [("messages", Json.arr
               [Json.obj [("role", Json.str "user"),
                          ("content", Json.str text)]]),
            ("max_tokens", Json.num 200)] }] := by
  refine ⟨rfl, ?_⟩
  simp only [summarize_text_core, he, hd, hk, hs]

/-- Witness for C8 at a concrete input. -/
theorem summarize_text_single_post_request_witness :
    api_ver = "2025-01-01-preview" ∧
    (summarize_text_core env_all post200 "full text").1 =
      [{ url := "https://svc" ++ "/openai/deployments/" ++ "dep" ++
           "/chat/completions?api-version=" ++ api_ver,
         headers := [("api-key", "secret"),
                     ("Content-Type", "application/json")],
         body := Json.obj
           [("messages", Json.arr
               [Json.obj [("role", Json.str "user"),
                          ("content", Json.str "full text")]]),
            ("max_tokens", Json.num 200)] }] :=
  summarize_text_single_post_request env_all post200 "full text"
    "https://svc" "dep" "secret" rfl rfl rfl rfl

/-- Claim C10: on a success (2xx) status, `summarize_text` fails with a
lookup error when `choices[0].message.content` is absent from the response
JSON, and returns normally only when that path exists (its value being
exactly what it returns). -/
theorem summarize_text_needs_choices_path
    (environ : Environ) (post : HttpRequest → HttpResponse)
    (resp : HttpResponse) (text ep dep key : String)
    (he : environ "AZURE_OPENAI_ENDPOINT" = some ep)
    (hd : environ "AZURE_OPENAI_DEPLOYMENT_NAME" = some dep)
    (hk : environ "AZURE_OPENAI_KEY" = some key)
    (hp : ∀ r, post r = resp)
    (h2xx : 200 ≤ resp.status ∧ resp.status < 300) :
    (choicesPath resp.body = none →
      (summarize_text_core environ post text).2 = .error .lookupError) ∧
    (∀ c, (summarize_text_core environ post text).2 = .ok c →
      choicesPath resp.body = some c) := by
  have hneg : ¬(400 ≤ resp.status ∧ resp.status < 600) := by omega
  simp only [summarize_text_core, he, hd, hk]
  rw [hp]
  rw [if_neg hneg]
  cases hcp : choicesPath resp.body with
  | none =>
    constructor
    · intro _; rfl
    · intro c hc; simp at hc
  | some x =>
    constructor
    · intro hnone; simp at hnone
    · intro c hc
      simp only [Except.ok.injEq] at hc
      rw [hc]

/-- Witness for C10 at a concrete input: a 200 response whose body does
carry the choices path. -/
theorem summarize_text_needs_choices_path_witness :
    (choicesPath resp200.body = none →
      (summarize_text_core env_all post200 "text").2 =
        .error .lookupError) ∧
    (∀ c, (summarize_text_core env_all post200 "text").2 = .ok c →
      choicesPath resp200.body = some c) :=
  summarize_text_needs_choices_path env_all post200 resp200 "text"
    "https://svc" "dep" "secret" rfl rfl rfl (fun _ => rfl) (by decide)

/-- Claim C6: each activity's result is a function of its input and of the
external services' responses alone — two invocations with the same input
and identical service responses yield identical results; in particular
extraction twice with the same blob name yields identical text. -/
theorem activities_deterministic
    (env₁ env₂ : Environ) (dl₁ dl₂ : String → Option Bytes)
    (an₁ an₂ : AnalyzeRequest → Option (List Page))
    (post₁ post₂ : HttpRequest → HttpResponse)
    (st₁ st₂ : OutStore) (t₁ t₂ : DateTime)
    (blobName text f S : String)
    (hce : env₁ "COGNITIVE_SERVICES_ENDPOINT" =
           env₂ "COGNITIVE_SERVICES_ENDPOINT")
    (hck : env₁ "COGNITIVE_SERVICES_KEY" = env₂ "COGNITIVE_SERVICES_KEY")
    (hdl : dl₁ blobName = dl₂ blobName)
    (han : ∀ r, an₁ r = an₂ r)
    (hoe : env₁ "AZURE_OPENAI_ENDPOINT" = env₂ "AZURE_OPENAI_ENDPOINT")
    (hod : env₁ "AZURE_OPENAI_DEPLOYMENT_NAME" =
           env₂ "AZURE_OPENAI_DEPLOYMENT_NAME")
    (hok : env₁ "AZURE_OPENAI_KEY" = env₂ "AZURE_OPENAI_KEY")
    (hpost : ∀ r, post₁ r = post₂ r)
    (hst : st₁ = st₂) (ht : t₁ = t₂) :
    analyze_pdf env₁ dl₁ an₁ blobName = analyze_pdf env₂ dl₂ an₂ blobName ∧
    summarize_text_core env₁ post₁ text =
      summarize_text_core env₂ post₂ text ∧
    write_summary st₁ t₁ f S = write_summary st₂ t₂ f S := by
  subst hst
  subst ht
  refine ⟨?_, ?_, rfl⟩
  · simp only [analyze_pdf, hdl, hce, hck, han]
  · simp only [summarize_text_core, hoe, hod, hok, hpost]

/-- Witness for C6 at concrete inputs: the same services on both sides. -/
theorem activities_deterministic_witness :
    analyze_pdf env_all dl0 an0 "doc.pdf" =
      analyze_pdf env_all dl0 an0 "doc.pdf" ∧
    summarize_text_core env_all post200 "text" =
      summarize_text_core env_all post200 "text" ∧
    write_summary [] now0 "doc.pdf" "S" = write_summary [] now0 "doc.pdf" "S" :=
  activities_deterministic env_all env_all dl0 dl0 an0 an0 post200 post200
    [] [] now0 now0 "doc.pdf" "text" "doc.pdf" "S"
    rfl rfl rfl (fun _ => rfl) rfl rfl rfl (fun _ => rfl) rfl rfl

/-- Counterexample to claim C7 as stated: with every variable present
except `AZURE_OPENAI_KEY`, cold start succeeds — only the storage
connection string is read at import time — and the missing key surfaces
only as a `KeyError` when the summarization activity itself runs. -/
theorem cold_start_ignores_openai_key :
    env_noseckey "AZURE_OPENAI_KEY" = none ∧
    coldStart env_noseckey = .ok "cfg" ∧
    (summarize_text_core env_noseckey post200 "text").2 =
      .error (.keyError "AZURE_OPENAI_KEY") :=
  ⟨rfl, rfl, rfl⟩

/-- Claim C7 (amended): a missing storage connection string fails at
cold-start with an unhandled lookup error; each of the other required
variables instead causes an unhandled lookup error when the activity that
reads it executes (extraction for the document-analysis endpoint and key,
summarization for the completion endpoint, deployment name and key). -/
theorem config_lookup_errors :
    (∀ environ : Environ, ∀ conn,
      environ "BLOB_STORAGE_ENDPOINT" = some conn →
        coldStart environ = .ok conn) ∧
    (∀ environ : Environ,
      environ "BLOB_STORAGE_ENDPOINT" = none →
        coldStart environ = .error (.keyError "BLOB_STORAGE_ENDPOINT")) ∧
    (∀ (environ : Environ) dl an name bs, dl name = some bs →
      environ "COGNITIVE_SERVICES_ENDPOINT" = none →
        analyze_pdf environ dl an name =
          .error (.keyError "COGNITIVE_SERVICES_ENDPOINT")) ∧
    (∀ (environ : Environ) dl an name bs cep, dl name = some bs →
      environ "COGNITIVE_SERVICES_ENDPOINT" = some cep →
      environ "COGNITIVE_SERVICES_KEY" = none →
        analyze_pdf environ dl an name =
          .error (.keyError "COGNITIVE_SERVICES_KEY")) ∧
    (∀ (environ : Environ) post text,
      environ "AZURE_OPENAI_ENDPOINT" = none →
        summarize_text_core environ post text =
          ([], .error (.keyError "AZURE_OPENAI_ENDPOINT"))) ∧
    (∀ (environ : Environ) post text ep,
      environ "AZURE_OPENAI_ENDPOINT" = some ep →
      environ "AZURE_OPENAI_DEPLOYMENT_NAME" = none →
        summarize_text_core environ post text =
          ([], .error (.keyError "AZURE_OPENAI_DEPLOYMENT_NAME"))) ∧
    (∀ (environ : Environ) post text ep dep,
      environ "AZURE_OPENAI_ENDPOINT" = some ep →
      environ "AZURE_OPENAI_DEPLOYMENT_NAME" = some dep →
      environ "AZURE_OPENAI_KEY" = none →
        summarize_text_core environ post text =
          ([], .error (.keyError "AZURE_OPENAI_KEY"))) := by
  refine ⟨?_, ?_, ?_, ?_, ?_, ?_, ?_⟩
  · intro environ conn h; simp only [coldStart, h]
  · intro environ h; simp only [coldStart, h]
  · intro environ dl an name bs h1 h2; simp only [analyze_pdf, h1, h2]
  · intro environ dl an name bs cep h1 h2 h3
    simp only [analyze_pdf, h1, h2, h3]
  · intro environ post text h; simp only [summarize_text_core, h]
  · intro environ post text ep h1 h2
    simp only [summarize_text_core, h1, h2]
  · intro environ post text ep dep h1 h2 h3
    simp only [summarize_text_core, h1, h2, h3]

/-- Witness for the amended C7 at concrete inputs: the empty environment
fails at cold start, and the environment missing only the completion key
fails inside the summarization activity. -/
theorem config_lookup_errors_witness :
    coldStart env_empty = .error (.keyError "BLOB_STORAGE_ENDPOINT") ∧
    summarize_text_core env_noseckey post200 "text" =
      ([], .error (.keyError "AZURE_OPENAI_KEY")) :=
  ⟨config_lookup_errors.2.1 env_empty rfl,
   config_lookup_errors.2.2.2.2.2.2 env_noseckey post200 "text"
     "cfg" "cfg" rfl rfl rfl⟩

/-- A string with no slash splits into a single segment: itself. -/
lemma splitSlashAux_of_no_slash (cs : List Char) (h : '/' ∉ cs) :
    splitSlashAux cs = (cs, []) := by
  induction cs with
  | nil => rfl
  | cons c rest ih =>
    have hc : ¬(c = '/') := fun hq => h (by rw [hq]; exact List.mem_cons_self _ _)
    have hrest : '/' ∉ rest := fun hm => h (List.mem_cons_of_mem c hm)
    simp [splitSlashAux, if_neg hc, ih hrest]

/-- A string containing a slash splits into at least two segments. -/
lemma splitSlashAux_snd_ne_nil_of_slash (cs : List Char) (h : '/' ∈ cs) :
    (splitSlashAux cs).2 ≠ [] := by
  induction cs with
  | nil => simp at h
  | cons c rest ih =>
    by_cases hc : c = '/'
    · simp [splitSlashAux, if_pos hc]
    · have hr : '/' ∈ rest := by
        rcases List.mem_cons.mp h with h1 | h1
        · exact absurd h1.symm hc
        · exact h1
      simp only [splitSlashAux, if_neg hc]
      exact ih hr

/-- The last segment of `splitSlash cs` contains no slash, and it is the
suffix of `cs` that follows the last slash: `cs` is some prefix (empty or
ending in `'/'`) followed by that segment. -/
lemma lastPart_spec (cs : List Char) :
    '/' ∉ (splitSlash cs).getLastD [] ∧
    ∃ pre, cs = pre ++ (splitSlash cs).getLastD [] ∧
      (pre = [] ∨ ∃ q, pre = q ++ ['/']) := by
  induction cs with
  | nil =>
    refine ⟨by simp [splitSlash, splitSlashAux], [], ?_, Or.inl rfl⟩
    simp [splitSlash, splitSlashAux]
  | cons c rest ih =>
    obtain ⟨ihm, pre, hpre, hpcond⟩ := ih
    by_cases hc : c = '/'
    · subst hc
      have hred : (splitSlash ('/' :: rest)).getLastD [] =
          (splitSlash rest).getLastD [] := by
        simp [splitSlash, splitSlashAux, List.getLastD_cons]
      rw [hred]
      refine ⟨ihm, '/' :: pre, ?_, ?_⟩
      · rw [List.cons_append, ← hpre]
      · right
        rcases hpcond with rfl | ⟨q, rfl⟩
        · exact ⟨[], rfl⟩
        · exact ⟨'/' :: q, rfl⟩
    · by_cases ht : (splitSlashAux rest).2 = []
      · have hnoslash : '/' ∉ rest := by
          intro hmem
          exact splitSlashAux_snd_ne_nil_of_slash rest hmem ht
        have haux : splitSlashAux rest = (rest, []) :=
          splitSlashAux_of_no_slash rest hnoslash
        have hred : (splitSlash (c :: rest)).getLastD [] = c :: rest := by
          simp [splitSlash, splitSlashAux, if_neg hc, haux]
        rw [hred]
        refine ⟨?_, [], rfl, Or.inl rfl⟩
        intro hmem
        rcases List.mem_cons.mp hmem with h1 | h1
        · exact hc h1.symm
        · exact hnoslash h1
      · have hred : (splitSlash (c :: rest)).getLastD [] =
            (splitSlash rest).getLastD [] := by
          obtain ⟨x, xs, hxs⟩ : ∃ x xs, (splitSlashAux rest).2 = x :: xs := by
            cases hq : (splitSlashAux rest).2 with
            | nil => exact absurd hq ht
            | cons x xs => exact ⟨x, xs, rfl⟩
          simp [splitSlash, splitSlashAux, if_neg hc, hxs, List.getLastD_cons]
        rw [hred]
        refine ⟨ihm, c :: pre, ?_, ?_⟩
        · rw [List.cons_append, ← hpre]
        · right
          rcases hpcond with rfl | ⟨q, rfl⟩
          · exfalso
            apply ht
            have hnoslash : '/' ∉ rest := by
              rw [hpre, List.nil_append]
              exact ihm
            rw [splitSlashAux_of_no_slash rest hnoslash]
          · exact ⟨c :: q, rfl⟩

/-- Claim C9: for every storage-event path, the ingress trigger starts
exactly one orchestration instance, whose input is the leaf file name: the
slash-free suffix of the path that follows its last `'/'` (the whole path
when it has no slash).  No condition on file type or size appears. -/
theorem blob_trigger_starts_one_instance_with_leaf (p : String) :
    blob_trigger p =
      [{ orchestratorName := "orchestrator", input := leafName p }] ∧
    '/' ∉ (leafName p).data ∧
    ∃ pre, p.data = pre ++ (leafName p).data ∧
      (pre = [] ∨ ∃ q, pre = q ++ ['/']) := by
  obtain ⟨hm, pre, hpre, hcond⟩ := lastPart_spec p.data
  exact ⟨rfl, hm, pre, hpre, hcond⟩

end PdfSummarizer
